import Mathlib

/-!
Shallow embedding of the coaching control tray's decision engine
(`src/components/control-tray/ControlTray.tsx`): the session validator,
the sharing-edge transition notifier, the forced-stop backstop, the
heartbeat scheduler, the speech activity tracker, the frame sampler and
the stream-switching operation, together with proofs of the behavioural
properties stated in the specification.

Timestamps are modelled as integers (milliseconds), stream handles as
numeric identifiers wrapped in `Option` (`none` is a null handle), and
volume samples as rationals.
-/

/-- A capture source adapter (webcam or screen capture): the liveness flag
`isStreaming` and the underlying stream handle (`none` when the handle is
null). -/
structure CaptureSource where
  isStreaming : Bool
  stream : Option Nat
  deriving DecidableEq, Repr

/-- The two capture source kinds wired into the control tray. -/
inductive SourceKind where
  | screen
  | camera
  deriving DecidableEq, Repr

/-- The inputs the control tray's sharing logic reads at one observation
point: the two capture source adapters, the two external video stream
handles (`videoStream` prop and `activeVideoStream` state), and the
outbound channel's availability (`client`, `connected`, `muted`). -/
structure World where
  screenCapture : CaptureSource
  webcam : CaptureSource
  videoStream : Option Nat
  activeVideoStream : Option Nat
  clientPresent : Bool
  connected : Bool
  muted : Bool
  deriving DecidableEq, Repr

/-- `validateScreenSharingState` from `ControlTray.tsx` (lines 158-185):
sharing counts as active when a capture adapter is streaming with a
non-null handle, or when either external video stream handle is non-null. -/
def validateScreenSharingState (w : World) : Bool :=
  let isScreenCaptureActive := w.screenCapture.isStreaming && w.screenCapture.stream.isSome
  let isWebcamActive := w.webcam.isStreaming && w.webcam.stream.isSome
  let hasActiveVideoStream := w.videoStream.isSome || w.activeVideoStream.isSome
  isScreenCaptureActive || isWebcamActive || hasActiveVideoStream

/-- The Session Validator's contract as the specification words it:
true iff at least one capture source reports `isStreaming` with a non-null
stream handle, or at least one externally supplied stream handle is
non-null. Kept separate from `validateScreenSharingState` so the two can
be compared. -/
def evaluateSpec (sources : List CaptureSource)
    (externalStreams : List (Option Nat)) : Bool :=
  sources.any (fun s => s.isStreaming && s.stream.isSome) ||
    externalStreams.any (fun h => h.isSome)

/-- C5: on every input configuration the session-validation predicate
returns true exactly when the specification's contract says it should:
at least one capture source streaming with a non-null handle, or at least
one external stream handle non-null. The predicate is a plain function of
its input record, hence pure and side-effect-free by construction. -/
theorem validateScreenSharingState_matches_contract (w : World) :
    validateScreenSharingState w =
      evaluateSpec [w.screenCapture, w.webcam]
        [w.videoStream, w.activeVideoStream] := by
  simp [validateScreenSharingState, evaluateSpec, Bool.or_assoc]

/-- The DOM-level transition events the control tray dispatches
(`screenSharingStarted` / `screenSharingStopped` custom events). -/
inductive Notice where
  | screenSharingStarted
  | screenSharingStopped
  deriving DecidableEq, Repr

/-- The messages handed to the outbound channel (`client.send`), identified
by the notification they carry in the source. -/
inductive ClientMsg where
  | screenShareNotification
  | screenShareStoppedNotification
  | forcedStopNotification
  | coachingInstruction
  deriving DecidableEq, Repr

/-- One observable action of the control tray's sharing logic, in the order
the source performs them: updating the previous-state flag, calling `stop()`
on an adapter, dispatching a DOM notice, or sending a client message. -/
inductive Act where
  | setWasScreenSharing (b : Bool)
  | stop (k : SourceKind)
  | dispatch (n : Notice)
  | send (m : ClientMsg)
  deriving DecidableEq, Repr

/-- Guard on every `client.send` call in the sharing logic:
`client && connected && !muted`. -/
def canSend (w : World) : Bool := w.clientPresent && w.connected && !w.muted

/-- The edge-detection body of the sharing effect (`ControlTray.tsx` lines
218-332), collapsed to one synchronous action list: on a false-to-true flip
the settle-deferred actions (started notice, flag update, guarded send) are
applied immediately when the re-check against `wSettle` validates; on a
true-to-false flip the stopped notice and flag update happen, with the
message guarded by `canSend`. The stop path is synchronous in the source
and this list mirrors it exactly; the source defers the started branch
through an uncancelled `setTimeout` whose callback closes over the
render-frozen snapshot, which `settleTimerStepActions` below models
faithfully — the collapsed form here serves the stop-path and
channel-guard accounting. -/
def edgeCheckActions (wasScreenSharing : Bool) (w wSettle : World) : List Act :=
  let isCurrentlyScreenSharing := validateScreenSharingState w
  if isCurrentlyScreenSharing && !wasScreenSharing then
    if validateScreenSharingState wSettle then
      Act.dispatch Notice.screenSharingStarted ::
        Act.setWasScreenSharing true ::
          (if canSend w then [Act.send ClientMsg.screenShareNotification] else [])
    else []
  else if !isCurrentlyScreenSharing && wasScreenSharing then
    Act.dispatch Notice.screenSharingStopped ::
      Act.setWasScreenSharing false ::
        (if canSend w then [Act.send ClientMsg.screenShareStoppedNotification] else [])
  else []

/-- One tick of `validationInterval` (`ControlTray.tsx` lines 188-216), the
forced-stop backstop: if the session was recorded as sharing and validation
now fails, it clears the flag, issues `stop()` to every adapter still marked
streaming, dispatches the stopped notice, and (if the channel is available)
sends the forced-stop message — in that source order. -/
def validationTickActions (wasScreenSharing : Bool) (w : World) : List Act :=
  let isActuallyScreenSharing := validateScreenSharingState w
  if wasScreenSharing && !isActuallyScreenSharing then
    Act.setWasScreenSharing false ::
      ((if w.screenCapture.isStreaming then [Act.stop SourceKind.screen] else []) ++
        ((if w.webcam.isStreaming then [Act.stop SourceKind.camera] else []) ++
          (Act.dispatch Notice.screenSharingStopped ::
            (if canSend w then [Act.send ClientMsg.forcedStopNotification] else []))))
  else []

/-- The speech fields of `currentStateRef` that one heartbeat tick reads. -/
structure SpeechSnapshot where
  isAISpeaking : Bool
  isUserSpeaking : Bool
  lastUserSpeechTime : Int
  deriving DecidableEq, Repr

/-- The quiet window the heartbeat gate enforces: 10000 ms in the source
(`timeSinceLastUserSpeech > 10000`). -/
def QUIET_WINDOW : Int := 10000

/-- The speech gate of one heartbeat tick (`ControlTray.tsx` lines 358-375):
allow a coaching message only when neither side is marked speaking and the
time since the last user-speech start strictly exceeds the quiet window. -/
def heartbeatGate (sp : SpeechSnapshot) (now : Int) : Bool :=
  let isSomeoneCurrentlySpeaking := sp.isAISpeaking || sp.isUserSpeaking
  let timeSinceLastUserSpeech := now - sp.lastUserSpeechTime
  let shouldAllowSystemCommand := decide (timeSinceLastUserSpeech > QUIET_WINDOW)
  !isSomeoneCurrentlySpeaking && shouldAllowSystemCommand

/-- One tick of the heartbeat interval (`ControlTray.tsx` lines 338-484):
the in-tick validation returns early unless one of the two adapters reports
`isStreaming` (stream handles and external streams are not consulted);
otherwise the speech gate decides whether the coaching instruction is sent.
A gated tick performs no action at all. -/
def heartbeatTickActions (w : World) (sp : SpeechSnapshot) (now : Int) : List Act :=
  if !w.screenCapture.isStreaming && !w.webcam.isStreaming then []
  else if heartbeatGate sp now then [Act.send ClientMsg.coachingInstruction]
  else []

/-- The state the sharing logic carries between observation points: the
`wasScreenSharing` flag and whether the heartbeat interval currently
exists (it is created by an effect run exactly when validation passes
there, and torn down on the next effect run). -/
structure Sys where
  wasScreenSharing : Bool
  heartbeatActive : Bool
  deriving DecidableEq, Repr

/-- One atomic observation point of the event-driven core: a run of the
sharing effect (edge check plus interval setup), a tick of the forced-stop
validation interval, or a tick of the heartbeat interval. Each carries the
state of the world it observes. -/
inductive Event where
  | effectRun (w wSettle : World)
  | validationTick (w : World)
  | heartbeatTick (w : World) (sp : SpeechSnapshot) (now : Int)
  deriving DecidableEq, Repr

/-- Actions one event produces from the current system state. A heartbeat
tick produces nothing when the heartbeat interval does not exist. -/
def stepActions (s : Sys) : Event → List Act
  | Event.effectRun w wSettle => edgeCheckActions s.wasScreenSharing w wSettle
  | Event.validationTick w => validationTickActions s.wasScreenSharing w
  | Event.heartbeatTick w sp now =>
      if s.heartbeatActive then heartbeatTickActions w sp now else []

/-- Effect of a single action on the system state: only the
`setWasScreenSharing` action changes it. -/
def applyAction (s : Sys) : Act → Sys
  | Act.setWasScreenSharing b => { s with wasScreenSharing := b }
  | _ => s

/-- System state after one event: its actions are applied, and an effect
run recreates (or tears down) the heartbeat interval according to the
validation result it observed. -/
def stepSys (s : Sys) (e : Event) : Sys :=
  let s' := (stepActions s e).foldl applyAction s
  match e with
  | Event.effectRun w _ => { s' with heartbeatActive := validateScreenSharingState w }
  | _ => s'

/-- All actions produced while running a sequence of events. -/
def runActions (s : Sys) : List Event → List Act
  | [] => []
  | e :: es => stepActions s e ++ runActions (stepSys s e) es

/-- Number of actions in a list satisfying a predicate. -/
def countAction (p : Act → Bool) : List Act → Nat
  | [] => 0
  | a :: rest => (if p a then 1 else 0) + countAction p rest

/-- Recognizes the started notice. -/
def isStartedDispatch : Act → Bool
  | Act.dispatch Notice.screenSharingStarted => true
  | _ => false

/-- Recognizes the stopped notice. -/
def isStoppedDispatch : Act → Bool
  | Act.dispatch Notice.screenSharingStopped => true
  | _ => false

/-- Recognizes the heartbeat's coaching message. -/
def isCoachingSend : Act → Bool
  | Act.send ClientMsg.coachingInstruction => true
  | _ => false

/-- Recognizes any client message hand-off. -/
def isSend : Act → Bool
  | Act.send _ => true
  | _ => false

theorem countAction_append (p : Act → Bool) (l1 l2 : List Act) :
    countAction p (l1 ++ l2) = countAction p l1 + countAction p l2 := by
  induction l1 with
  | nil => simp [countAction]
  | cons a rest ih => simp [countAction, ih]; ring

/-- Number of true-to-false edges of the recorded sharing flag along an
event sequence. -/
def countStopEdges (s : Sys) : List Event → Nat
  | [] => 0
  | e :: es =>
      (if s.wasScreenSharing && !(stepSys s e).wasScreenSharing then 1 else 0) +
        countStopEdges (stepSys s e) es

/-- Whether the adapter of a given kind reports `isStreaming`. -/
def kindIsStreaming (w : World) : SourceKind → Bool
  | SourceKind.screen => w.screenCapture.isStreaming
  | SourceKind.camera => w.webcam.isStreaming

theorem countStopped_stepActions (s : Sys) (e : Event) :
    countAction isStoppedDispatch (stepActions s e) =
      (if s.wasScreenSharing && !(stepSys s e).wasScreenSharing then 1 else 0) := by
  cases e with
  | effectRun w wSettle =>
      cases hw : validateScreenSharingState w <;>
        cases hwas : s.wasScreenSharing <;>
          cases hs : validateScreenSharingState wSettle <;>
            cases hc : canSend w <;>
              simp [stepActions, stepSys, edgeCheckActions, countAction, applyAction,
                isStoppedDispatch, hw, hwas, hs, hc]
  | validationTick w =>
      cases hw : validateScreenSharingState w <;>
        cases hwas : s.wasScreenSharing <;>
          cases hc : canSend w <;>
            cases hsc : w.screenCapture.isStreaming <;>
              cases hwc : w.webcam.isStreaming <;>
                simp [stepActions, stepSys, validationTickActions, countAction,
                  countAction_append, applyAction, isStoppedDispatch, hw, hwas, hc,
                  hsc, hwc]
  | heartbeatTick w sp now =>
      cases hhb : s.heartbeatActive <;>
        cases hsc : w.screenCapture.isStreaming <;>
          cases hwc : w.webcam.isStreaming <;>
            cases hg : heartbeatGate sp now <;>
              cases hwas : s.wasScreenSharing <;>
                simp [stepActions, stepSys, heartbeatTickActions, countAction,
                  applyAction, isStoppedDispatch, hhb, hsc, hwc, hg, hwas]

/-- C2: over every sequence of observation points, the stopped notification
fires exactly once per true-to-false edge of the recorded sharing flag —
whether the edge comes from an external stop seen by the effect run or from
the forced-stop backstop — and on the forced-stop path the flag is cleared
and `stop()` is issued to exactly the adapters still marked streaming before
the single stopped notification is dispatched. -/
theorem stopped_notice_exactly_once_per_edge :
    (∀ (s : Sys) (tr : List Event),
        countAction isStoppedDispatch (runActions s tr) = countStopEdges s tr) ∧
    (∀ w : World, validateScreenSharingState w = false →
        ∃ pre post,
          validationTickActions true w =
              pre ++ Act.dispatch Notice.screenSharingStopped :: post ∧
            Act.setWasScreenSharing false ∈ pre ∧
            (∀ k, Act.stop k ∈ pre ↔ kindIsStreaming w k = true) ∧
            countAction isStoppedDispatch pre = 0 ∧
            countAction isStoppedDispatch post = 0) := by
  constructor
  · intro s tr
    induction tr generalizing s with
    | nil => rfl
    | cons e es ih =>
        simp [runActions, countStopEdges, countAction_append,
          countStopped_stepActions, ih]
  · intro w hval
    refine ⟨Act.setWasScreenSharing false ::
        ((if w.screenCapture.isStreaming then [Act.stop SourceKind.screen] else []) ++
          (if w.webcam.isStreaming then [Act.stop SourceKind.camera] else [])),
      (if canSend w then [Act.send ClientMsg.forcedStopNotification] else []),
      ?_, ?_, ?_, ?_, ?_⟩
    · simp [validationTickActions, hval]
    · exact List.mem_cons_self _ _
    · intro k
      cases k <;>
        cases hsc : w.screenCapture.isStreaming <;>
          cases hwc : w.webcam.isStreaming <;>
            simp [kindIsStreaming, hsc, hwc]
    · cases hsc : w.screenCapture.isStreaming <;>
        cases hwc : w.webcam.isStreaming <;>
          simp [countAction, countAction_append, isStoppedDispatch, hsc, hwc]
    · cases hcs : canSend w <;> simp [countAction, isStoppedDispatch, hcs]

theorem heartbeatGate_eq_true_iff (sp : SpeechSnapshot) (now : Int) :
    heartbeatGate sp now = true ↔
      (sp.isAISpeaking = false ∧ sp.isUserSpeaking = false ∧
        QUIET_WINDOW < now - sp.lastUserSpeechTime) := by
  cases ha : sp.isAISpeaking <;> cases hu : sp.isUserSpeaking <;>
    simp [heartbeatGate, ha, hu]

/-- C3: on a heartbeat tick that passes the in-tick streaming validation,
the coaching message is sent if and only if neither side is marked speaking
and the time since the last user-speech start strictly exceeds the 10000 ms
quiet window; a tick falling inside the quiet window sends nothing; a gated
tick performs no action at all (nothing is queued or retried later); and a
tick hands off at most one message. -/
theorem heartbeat_tick_gate_iff (w : World) (sp : SpeechSnapshot) (now : Int)
    (hstream : (w.screenCapture.isStreaming || w.webcam.isStreaming) = true) :
    (heartbeatTickActions w sp now = [Act.send ClientMsg.coachingInstruction] ↔
        (sp.isAISpeaking = false ∧ sp.isUserSpeaking = false ∧
          QUIET_WINDOW < now - sp.lastUserSpeechTime)) ∧
    (now - sp.lastUserSpeechTime ≤ QUIET_WINDOW →
        heartbeatTickActions w sp now = []) ∧
    (heartbeatGate sp now = false → heartbeatTickActions w sp now = []) ∧
    countAction isSend (heartbeatTickActions w sp now) ≤ 1 := by
  have hbranch : (!w.screenCapture.isStreaming && !w.webcam.isStreaming) = false := by
    cases hsc : w.screenCapture.isStreaming <;>
      cases hwc : w.webcam.isStreaming <;> simp_all
  refine ⟨?_, ?_, ?_, ?_⟩
  · rw [← heartbeatGate_eq_true_iff]
    cases hg : heartbeatGate sp now <;> simp [heartbeatTickActions, hbranch, hg]
  · intro h
    have hg : heartbeatGate sp now = false := by
      have hd : decide (now - sp.lastUserSpeechTime > QUIET_WINDOW) = false := by
        simp only [decide_eq_false_iff_not]
        exact not_lt.mpr h
      simp [heartbeatGate, hd]
    simp [heartbeatTickActions, hbranch, hg]
  · intro hg
    simp [heartbeatTickActions, hbranch, hg]
  · cases hg : heartbeatGate sp now <;>
      simp [heartbeatTickActions, hbranch, hg, countAction, isSend]

/-- A sample world in which only the screen-capture adapter streams and the
outbound channel is available. -/
def sampleWorldStreaming : World :=
  { screenCapture := { isStreaming := true, stream := some 0 },
    webcam := { isStreaming := false, stream := none },
    videoStream := none, activeVideoStream := none,
    clientPresent := true, connected := true, muted := false }

/-- A sample quiet speech snapshot: nobody speaking, last user speech at
time 0. -/
def sampleQuietSpeech : SpeechSnapshot :=
  { isAISpeaking := false, isUserSpeaking := false, lastUserSpeechTime := 0 }

/-- Witness for the heartbeat gate theorem at a concrete streaming world and
a tick 20000 ms after the last user speech. -/
theorem heartbeat_tick_gate_iff_witness :
    heartbeatTickActions sampleWorldStreaming sampleQuietSpeech 20000 =
      [Act.send ClientMsg.coachingInstruction] :=
  (heartbeat_tick_gate_iff sampleWorldStreaming sampleQuietSpeech 20000
      (by decide)).1.mpr (by refine ⟨rfl, rfl, ?_⟩; decide)

/-- Decidable check that the heartbeat interval stays torn down at every
observation point along an event sequence. -/
def heartbeatInactiveThroughout (s : Sys) : List Event → Bool
  | [] => true
  | e :: es => !s.heartbeatActive && heartbeatInactiveThroughout (stepSys s e) es

theorem countCoaching_stepActions_inactive (s : Sys) (e : Event)
    (h : s.heartbeatActive = false) :
    countAction isCoachingSend (stepActions s e) = 0 := by
  cases e with
  | effectRun w wSettle =>
      cases hw : validateScreenSharingState w <;>
        cases hwas : s.wasScreenSharing <;>
          cases hs : validateScreenSharingState wSettle <;>
            cases hc : canSend w <;>
              simp [stepActions, edgeCheckActions, countAction, isCoachingSend,
                hw, hwas, hs, hc]
  | validationTick w =>
      cases hw : validateScreenSharingState w <;>
        cases hwas : s.wasScreenSharing <;>
          cases hc : canSend w <;>
            cases hsc : w.screenCapture.isStreaming <;>
              cases hwc : w.webcam.isStreaming <;>
                simp [stepActions, validationTickActions, countAction,
                  countAction_append, isCoachingSend, hw, hwas, hc, hsc, hwc]
  | heartbeatTick w sp now => simp [stepActions, h, countAction]

/-- C4: the heartbeat scheduler emits nothing while the session is not
active: along any event sequence during which the heartbeat interval stays
torn down, zero coaching messages are produced; an effect run that observes
a failed validation does tear the interval down; and at any single
observation point with the interval torn down, no coaching message is
produced. -/
theorem heartbeat_never_fires_while_inactive :
    (∀ (s : Sys) (tr : List Event),
        heartbeatInactiveThroughout s tr = true →
        countAction isCoachingSend (runActions s tr) = 0) ∧
    (∀ (s : Sys) (w wSettle : World), validateScreenSharingState w = false →
        (stepSys s (Event.effectRun w wSettle)).heartbeatActive = false) ∧
    (∀ (s : Sys) (e : Event), s.heartbeatActive = false →
        countAction isCoachingSend (stepActions s e) = 0) := by
  refine ⟨?_, ?_, ?_⟩
  · intro s tr
    induction tr generalizing s with
    | nil => intro _; rfl
    | cons e es ih =>
        intro h
        simp only [heartbeatInactiveThroughout, Bool.and_eq_true,
          Bool.not_eq_true'] at h
        simp [runActions, countAction_append,
          countCoaching_stepActions_inactive s e h.1, ih _ h.2]
  · intro s w wSettle hval
    simp [stepSys, hval]
  · exact countCoaching_stepActions_inactive

/-- C9: the in-tick heartbeat guard reads only the two adapters'
`isStreaming` flags: a tick with both flags false performs nothing even
when external stream handles are non-null — so a session counted active
solely through external streams never yields a coaching message — the tick
ignores stream handles and external streams entirely, and an adapter with
`isStreaming` true and a null stream handle still passes the guard. -/
theorem heartbeat_in_tick_guard_flags_only :
    (∀ (w : World) (sp : SpeechSnapshot) (now : Int),
        w.screenCapture.isStreaming = false → w.webcam.isStreaming = false →
        heartbeatTickActions w sp now = []) ∧
    (∀ (w w' : World) (sp : SpeechSnapshot) (now : Int),
        w.screenCapture.isStreaming = w'.screenCapture.isStreaming →
        w.webcam.isStreaming = w'.webcam.isStreaming →
        heartbeatTickActions w sp now = heartbeatTickActions w' sp now) ∧
    (∀ (w : World) (sp : SpeechSnapshot) (now : Int),
        w.screenCapture.isStreaming = false → w.webcam.isStreaming = false →
        validateScreenSharingState w = true →
        heartbeatTickActions w sp now = []) ∧
    (∀ (w : World) (sp : SpeechSnapshot) (now : Int),
        w.screenCapture.isStreaming = true → w.screenCapture.stream = none →
        heartbeatGate sp now = true →
        heartbeatTickActions w sp now = [Act.send ClientMsg.coachingInstruction]) := by
  refine ⟨?_, ?_, ?_, ?_⟩
  · intro w sp now h1 h2
    simp [heartbeatTickActions, h1, h2]
  · intro w w' sp now h1 h2
    simp only [heartbeatTickActions, h1, h2]
  · intro w sp now h1 h2 _
    simp [heartbeatTickActions, h1, h2]
  · intro w sp now h1 _ hg
    simp [heartbeatTickActions, h1, hg]

/-- A copy of `w` with the outbound-channel fields replaced and everything
else unchanged. -/
def withChannel (w : World) (clientPresent connected muted : Bool) : World :=
  { w with clientPresent := clientPresent, connected := connected, muted := muted }

theorem validate_withChannel (w : World) (p c m : Bool) :
    validateScreenSharingState (withChannel w p c m) =
      validateScreenSharingState w := rfl

theorem canSend_withChannel (w : World) (p c m : Bool) :
    canSend (withChannel w p c m) = (p && c && !m) := rfl

theorem withChannel_screenCapture (w : World) (p c m : Bool) :
    (withChannel w p c m).screenCapture = w.screenCapture := rfl

theorem withChannel_webcam (w : World) (p c m : Bool) :
    (withChannel w p c m).webcam = w.webcam := rfl

/-- C6: on every sharing edge — started, stopped, or forced stop — a client
message is handed to the outbound channel only when the client is present,
connected and not muted; the channel's availability never changes which flag
updates, stop calls and notices the edge performs (the edge is still
recorded when no message can be sent, and nothing is queued for retry); and
each edge hands off at most one message. -/
theorem edge_messages_best_effort :
    (∀ (was : Bool) (w wSettle : World) (m : ClientMsg),
        canSend w = false → Act.send m ∉ edgeCheckActions was w wSettle) ∧
    (∀ (was : Bool) (w : World) (m : ClientMsg),
        canSend w = false → Act.send m ∉ validationTickActions was w) ∧
    (∀ (was : Bool) (w wSettle : World) (p1 c1 m1 p2 c2 m2 : Bool),
        (edgeCheckActions was (withChannel w p1 c1 m1) wSettle).filter
            (fun a => !isSend a) =
          (edgeCheckActions was (withChannel w p2 c2 m2) wSettle).filter
            (fun a => !isSend a)) ∧
    (∀ (was : Bool) (w : World) (p1 c1 m1 p2 c2 m2 : Bool),
        (validationTickActions was (withChannel w p1 c1 m1)).filter
            (fun a => !isSend a) =
          (validationTickActions was (withChannel w p2 c2 m2)).filter
            (fun a => !isSend a)) ∧
    (∀ (was : Bool) (w wSettle : World),
        countAction isSend (edgeCheckActions was w wSettle) ≤ 1) ∧
    (∀ (was : Bool) (w : World),
        countAction isSend (validationTickActions was w) ≤ 1) := by
  refine ⟨?_, ?_, ?_, ?_, ?_, ?_⟩
  · intro was w wSettle m hc
    cases hw : validateScreenSharingState w <;> cases was <;>
      cases hs : validateScreenSharingState wSettle <;>
        simp [edgeCheckActions, hw, hs, hc]
  · intro was w m hc
    cases hw : validateScreenSharingState w <;> cases was <;>
      cases hsc : w.screenCapture.isStreaming <;>
        cases hwc : w.webcam.isStreaming <;>
          simp [validationTickActions, hw, hc, hsc, hwc]
  · intro was w wSettle p1 c1 m1 p2 c2 m2
    cases hw : validateScreenSharingState w <;> cases was <;>
      cases hs : validateScreenSharingState wSettle <;>
        cases h1 : canSend (withChannel w p1 c1 m1) <;>
          cases h2 : canSend (withChannel w p2 c2 m2) <;>
            simp [edgeCheckActions, validate_withChannel, hw, hs, h1, h2, isSend]
  · intro was w p1 c1 m1 p2 c2 m2
    cases hw : validateScreenSharingState w <;> cases was <;>
      cases h1 : canSend (withChannel w p1 c1 m1) <;>
        cases h2 : canSend (withChannel w p2 c2 m2) <;>
          cases hsc : w.screenCapture.isStreaming <;>
            cases hwc : w.webcam.isStreaming <;>
              simp [validationTickActions, validate_withChannel,
                withChannel_screenCapture, withChannel_webcam, hw, h1, h2,
                hsc, hwc, isSend]
  · intro was w wSettle
    cases hw : validateScreenSharingState w <;> cases was <;>
      cases hs : validateScreenSharingState wSettle <;>
        cases hc : canSend w <;>
          simp [edgeCheckActions, countAction, isSend, hw, hs, hc]
  · intro was w
    cases hw : validateScreenSharingState w <;> cases was <;>
      cases hc : canSend w <;>
        cases hsc : w.screenCapture.isStreaming <;>
          cases hwc : w.webcam.isStreaming <;>
            simp [validationTickActions, countAction, countAction_append, isSend,
              hw, hc, hsc, hwc]

/-- The input-volume threshold of the speech tracking effect
(`volumeThreshold = 0.015` in the source). -/
def volumeThreshold : Rat := 15 / 1000

/-- The output-volume threshold for the AI-speaking flag
(`volume > 0.01` in the source). -/
def aiVolumeThreshold : Rat := 1 / 100

/-- The speech activity tracker's state: the two speaking flags and the
timestamp of the last user-speech start. -/
structure SpeechState where
  isUserSpeaking : Bool
  isAISpeaking : Bool
  lastUserSpeechTime : Int
  deriving DecidableEq, Repr

/-- The input-volume effect (`ControlTray.tsx` lines 137-150): derive the
user-speaking flag from the threshold; when it changed, record it, and on a
not-speaking-to-speaking transition set `lastUserSpeechTime` to the current
time (`Date.now()`). -/
def onInputVolume (s : SpeechState) (inVolume : Rat) (now : Int) : SpeechState :=
  let currentlyUserSpeaking := decide (inVolume > volumeThreshold)
  if currentlyUserSpeaking != s.isUserSpeaking then
    { s with isUserSpeaking := currentlyUserSpeaking,
             lastUserSpeechTime :=
               if currentlyUserSpeaking then now else s.lastUserSpeechTime }
  else s

/-- The output-volume effect (`ControlTray.tsx` lines 130-132): the
AI-speaking flag follows the AI volume threshold; nothing else changes. -/
def onOutputVolume (s : SpeechState) (volume : Rat) : SpeechState :=
  { s with isAISpeaking := decide (volume > aiVolumeThreshold) }

/-- One volume sample as delivered to the tracker; an input sample carries
the clock reading at which it is processed. -/
inductive Sample where
  | input (v : Rat) (now : Int)
  | output (v : Rat)
  deriving DecidableEq, Repr

/-- Dispatch of one sample to the matching effect. -/
def speechStep (s : SpeechState) : Sample → SpeechState
  | Sample.input v now => onInputVolume s v now
  | Sample.output v => onOutputVolume s v

/-- Tracker state after a sequence of samples. -/
def speechRun (s : SpeechState) : List Sample → SpeechState
  | [] => s
  | ev :: evs => speechRun (speechStep s ev) evs

/-- Clock sanity of a sample sequence: input sample times are non-decreasing
and bounded below by `t` (true of real executions, where every time is a
fresh `Date.now()` reading). -/
def timesLowerBounded (t : Int) : List Sample → Bool
  | [] => true
  | Sample.input _ now :: rest => decide (t ≤ now) && timesLowerBounded now rest
  | Sample.output _ :: rest => timesLowerBounded t rest

theorem timesLowerBounded_mono (t t' : Int) (l : List Sample) (h : t ≤ t')
    (hl : timesLowerBounded t' l = true) : timesLowerBounded t l = true := by
  induction l generalizing t t' with
  | nil => rfl
  | cons ev rest ih =>
      cases ev with
      | input v now =>
          simp only [timesLowerBounded, Bool.and_eq_true, decide_eq_true_eq] at hl ⊢
          exact ⟨le_trans h hl.1, hl.2⟩
      | output v =>
          simp only [timesLowerBounded] at hl ⊢
          exact ih t t' h hl

theorem onInputVolume_last_cases (s : SpeechState) (v : Rat) (now : Int) :
    (onInputVolume s v now).lastUserSpeechTime = now ∨
      (onInputVolume s v now).lastUserSpeechTime = s.lastUserSpeechTime := by
  by_cases hv : v > volumeThreshold <;>
    cases hu : s.isUserSpeaking <;>
      simp [onInputVolume, hv, hu]

/-- C7: a not-speaking-to-speaking transition on the input side sets
`lastUserSpeechTime` to the current time (and marks the user speaking);
output-side transitions never touch the timestamp; and along any sample
sequence processed under a sane clock, `lastUserSpeechTime` is monotonically
non-decreasing. -/
theorem lastUserSpeechTime_updated_and_monotone :
    (∀ (s : SpeechState) (v : Rat) (now : Int),
        s.isUserSpeaking = false → volumeThreshold < v →
        (onInputVolume s v now).lastUserSpeechTime = now ∧
          (onInputVolume s v now).isUserSpeaking = true) ∧
    (∀ (s : SpeechState) (v : Rat),
        (onOutputVolume s v).lastUserSpeechTime = s.lastUserSpeechTime) ∧
    (∀ (s : SpeechState) (samples : List Sample),
        timesLowerBounded s.lastUserSpeechTime samples = true →
        s.lastUserSpeechTime ≤ (speechRun s samples).lastUserSpeechTime) := by
  refine ⟨?_, ?_, ?_⟩
  · intro s v now hu hv
    simp [onInputVolume, hu, hv]
  · intro s v
    rfl
  · intro s samples
    induction samples generalizing s with
    | nil => intro _; exact le_refl _
    | cons ev rest ih =>
        intro h
        cases ev with
        | input v now =>
            simp only [timesLowerBounded, Bool.and_eq_true, decide_eq_true_eq] at h
            obtain ⟨h1, h2⟩ := h
            have hrun :
                speechRun s (Sample.input v now :: rest) =
                  speechRun (onInputVolume s v now) rest := rfl
            rw [hrun]
            rcases onInputVolume_last_cases s v now with hl | hl
            · have hstep := ih (onInputVolume s v now) (by rw [hl]; exact h2)
              omega
            · have hstep := ih (onInputVolume s v now)
                (by rw [hl]; exact timesLowerBounded_mono _ _ _ h1 h2)
              omega
        | output v =>
            have h' : timesLowerBounded
                ((onOutputVolume s v).lastUserSpeechTime) rest = true := by
              simpa [timesLowerBounded, onOutputVolume] using h
            have hstep := ih (onOutputVolume s v) h'
            simpa [speechRun, speechStep, onOutputVolume] using hstep

/-- The frame sampler's per-frame send decision (`sendVideoFrame`,
`ControlTray.tsx` lines 557-577): the canvas is sized to a quarter of the
video's dimensions (`canvas.width = video.videoWidth * 0.25`, and the
canvas dimension setter truncates to an integer, hence division by 4), and
the encoded image is forwarded exactly when the two scaled dimensions do
not sum to zero (`if (canvas.width + canvas.height > 0)`). Returns whether
an encoded image is forwarded to the realtime media channel. -/
def sendVideoFrameSends (videoWidth videoHeight : Nat) : Bool :=
  let canvasWidth := videoWidth / 4
  let canvasHeight := videoHeight / 4
  decide (canvasWidth + canvasHeight > 0)

/-- C8 counterexample: a frame 0 pixels wide and 8 pixels high is not
skipped — the encoded image is forwarded even though the frame's width is
zero, because the guard only checks that the scaled dimensions do not sum
to zero. -/
theorem zero_width_frame_still_sent : sendVideoFrameSends 0 8 = true := by
  decide

/-- C8 amended: a sampled frame is skipped exactly when both scaled
dimensions truncate to zero, i.e. when the width and the height are both
below 4 pixels; a frame with one zero dimension is still forwarded whenever
the other dimension is at least 4. -/
theorem frame_skipped_iff_both_dims_degenerate (videoWidth videoHeight : Nat) :
    sendVideoFrameSends videoWidth videoHeight =
      (decide (4 ≤ videoWidth) || decide (4 ≤ videoHeight)) := by
  by_cases h1 : 4 ≤ videoWidth <;> by_cases h2 : 4 ≤ videoHeight <;>
    simp [sendVideoFrameSends, h1, h2] <;> omega

/-- Modelled from the spec: the Capture Source Adapter's `stop()` — the hook
implementations (`hooks/use-webcam`, `hooks/use-screen-capture`) are not
among the sources; per the adapter contract, stopping a source clears its
liveness flag and its handle. -/
def stopAdapter (_ : CaptureSource) : CaptureSource :=
  { isStreaming := false, stream := none }

/-- Modelled from the spec: the adapter's `start()` either resolves with a
stream handle, leaving the source streaming with that handle, or rejects,
in which case the call site catches the error and the stream is simply not
set (the source is left as it was). -/
def startAdapter (result : Option Nat) (s : CaptureSource) : CaptureSource :=
  match result with
  | some h => { isStreaming := true, stream := some h }
  | none => s

/-- Result of one `changeStreams` invocation: the two adapters afterwards,
the new `activeVideoStream`, and the adapters `stop()` was issued to, in
the order of `videoStreams = [webcam, screenCapture]`. -/
structure ChangeStreamsResult where
  webcam : CaptureSource
  screenCapture : CaptureSource
  activeVideoStream : Option Nat
  stopsIssued : List SourceKind
  deriving DecidableEq, Repr

/-- `changeStreams` (`ControlTray.tsx` lines 586-615): when switching to a
source, `start()` it (on success the resulting stream becomes the active
video stream; a rejection is caught and changes nothing); when switching to
none, the active video stream is cleared; in every case `stop()` is then
issued to each source other than the chosen one
(`videoStreams.filter((msr) => msr !== next).forEach((msr) => msr.stop())`). -/
def changeStreams (next : Option SourceKind) (startResult : Option Nat)
    (webcam screenCapture : CaptureSource) (activeVideoStream : Option Nat) :
    ChangeStreamsResult :=
  match next with
  | some SourceKind.camera =>
      { webcam := startAdapter startResult webcam,
        screenCapture := stopAdapter screenCapture,
        activeVideoStream :=
          match startResult with
          | some h => some h
          | none => activeVideoStream,
        stopsIssued := [SourceKind.screen] }
  | some SourceKind.screen =>
      { webcam := stopAdapter webcam,
        screenCapture := startAdapter startResult screenCapture,
        activeVideoStream :=
          match startResult with
          | some h => some h
          | none => activeVideoStream,
        stopsIssued := [SourceKind.camera] }
  | none =>
      { webcam := stopAdapter webcam,
        screenCapture := stopAdapter screenCapture,
        activeVideoStream := none,
        stopsIssued := [SourceKind.camera, SourceKind.screen] }

/-- C10: after any completed `changeStreams` invocation, `stop()` has been
issued to exactly the capture sources other than the newly chosen one (to
every source when switching to none), and consequently at most one of the
webcam and screen-capture adapters is left streaming. -/
theorem changeStreams_stops_all_others (next : Option SourceKind)
    (startResult : Option Nat) (wc sc : CaptureSource) (avs : Option Nat) :
    (∀ k : SourceKind,
        k ∈ (changeStreams next startResult wc sc avs).stopsIssued ↔
          some k ≠ next) ∧
    ¬((changeStreams next startResult wc sc avs).webcam.isStreaming = true ∧
      (changeStreams next startResult wc sc avs).screenCapture.isStreaming
        = true) := by
  rcases next with _ | k
  · constructor
    · intro k
      cases k <;> simp [changeStreams]
    · cases startResult <;>
        simp [changeStreams, stopAdapter, startAdapter]
  · cases k <;>
      constructor <;>
        first
          | (intro k; cases k <;> simp [changeStreams])
          | (cases startResult <;>
              simp [changeStreams, stopAdapter, startAdapter])

/-- A sample world with no capture source streaming and no external stream
handles; validation fails on it. -/
def sampleWorldIdle : World :=
  { screenCapture := { isStreaming := false, stream := none },
    webcam := { isStreaming := false, stream := none },
    videoStream := none, activeVideoStream := none,
    clientPresent := true, connected := true, muted := false }

/-- State of the started-edge logic when the 1-second settle timeout is
modelled faithfully: the recorded sharing flag plus the queue of pending
settle timeouts. Each pending entry is the render-frozen snapshot the
`setTimeout` callback closes over (`ControlTray.tsx` line 223; stream
flags, external handles and channel flags are all captured at scheduling
time). The effect cleanup (lines 491-499) clears only `tickInterval` and
`validationInterval`, so tearing the effect down does not cancel these
timeouts. -/
structure SettleSys where
  wasScreenSharing : Bool
  pendingSettles : List World
  deriving DecidableEq, Repr

/-- An observation point of the started-edge logic with faithful timers:
a run of the sharing effect, or the firing of the oldest pending settle
timeout. -/
inductive SettleEvent where
  | effectRun (w : World)
  | settleFire
  deriving DecidableEq, Repr

/-- The body of one settle timeout callback (`ControlTray.tsx` lines
223-315): it re-runs `validateScreenSharingState` against the values it
closed over — the render-frozen snapshot, not fresh state — and does not
re-check `wasScreenSharing`; when the frozen re-check passes it dispatches
the started notice, sets the flag, and sends the guarded message. -/
def settleCallbackActions (wFrozen : World) : List Act :=
  if validateScreenSharingState wFrozen then
    Act.dispatch Notice.screenSharingStarted ::
      Act.setWasScreenSharing true ::
        (if canSend wFrozen then [Act.send ClientMsg.screenShareNotification] else [])
  else []

/-- Actions of one observation point under faithful timers: an effect run
performs the synchronous stop path immediately but only schedules a timeout
on a false-to-true flip (the started actions are deferred); a settle firing
runs the oldest pending callback. -/
def settleTimerStepActions (s : SettleSys) : SettleEvent → List Act
  | SettleEvent.effectRun w =>
      let isCurrentlyScreenSharing := validateScreenSharingState w
      if isCurrentlyScreenSharing && !s.wasScreenSharing then []
      else if !isCurrentlyScreenSharing && s.wasScreenSharing then
        Act.dispatch Notice.screenSharingStopped ::
          Act.setWasScreenSharing false ::
            (if canSend w then [Act.send ClientMsg.screenShareStoppedNotification]
             else [])
      else []
  | SettleEvent.settleFire =>
      match s.pendingSettles with
      | [] => []
      | wFrozen :: _ => settleCallbackActions wFrozen

/-- State after one observation point under faithful timers: a
false-to-true flip appends a timeout carrying the current snapshot (without
touching the flag — the source sets it only inside the callback); the
timeout queue is never cleared by an effect re-run; a firing pops the
oldest timeout and commits the flag exactly when its frozen re-check
passes. -/
def settleTimerStepSys (s : SettleSys) : SettleEvent → SettleSys
  | SettleEvent.effectRun w =>
      let isCurrentlyScreenSharing := validateScreenSharingState w
      if isCurrentlyScreenSharing && !s.wasScreenSharing then
        { s with pendingSettles := s.pendingSettles ++ [w] }
      else if !isCurrentlyScreenSharing && s.wasScreenSharing then
        { s with wasScreenSharing := false }
      else s
  | SettleEvent.settleFire =>
      match s.pendingSettles with
      | [] => s
      | wFrozen :: rest =>
          if validateScreenSharingState wFrozen then
            { wasScreenSharing := true, pendingSettles := rest }
          else { s with pendingSettles := rest }

/-- All actions produced while running a sequence of observation points
under faithful timers. -/
def settleTimerRunActions (s : SettleSys) : List SettleEvent → List Act
  | [] => []
  | e :: es => settleTimerStepActions s e ++
      settleTimerRunActions (settleTimerStepSys s e) es

/-- C1: the settle timeout's id is discarded — the effect cleanup clears
only the two intervals — and its callback re-checks neither
`wasScreenSharing` nor fresh stream state, only the render-frozen snapshot.
First conjunct: two effect runs inside a single false-to-true flip of the
validator (routine, since the effect also re-runs on speech-state changes
within the 1-second window) each schedule a timeout, and both firings
dispatch the started notification — two started notifications for one
false-to-true evaluate edge, against the demanded exactly-once. Second
conjunct: a flip that reverts to false before the re-check still produces
one started notification instead of zero, because the frozen snapshot
still validates. -/
theorem settle_timer_started_notice_double_fire :
    (countAction isStartedDispatch
        (settleTimerRunActions
          { wasScreenSharing := false, pendingSettles := [] }
          [SettleEvent.effectRun sampleWorldStreaming,
           SettleEvent.effectRun sampleWorldStreaming,
           SettleEvent.settleFire, SettleEvent.settleFire]) = 2) ∧
    (countAction isStartedDispatch
        (settleTimerRunActions
          { wasScreenSharing := false, pendingSettles := [] }
          [SettleEvent.effectRun sampleWorldStreaming,
           SettleEvent.effectRun sampleWorldIdle,
           SettleEvent.settleFire]) = 1) := by
  constructor <;> decide
